import Mathlib

/-!
Verification of the NixieClock firmware core (src/src/NixieClock.cpp, with the
earlier revision in src/arduino/src/NixieClock.cpp).  The C++ sources are
shallowly embedded below: Arduino String and Stream operations become functions
on List Char, the flash config file becomes a List Char, network responses
become explicit input records, and the behavior-switching controller becomes a
small transition system.  Machine integers are modelled as Nat or Int, with an
explicit mod 2 to the 32 where the C code relies on uint32 wraparound.
-/

namespace NixieClock

/-! ## Arduino String and Stream primitives -/

/-- Stream readStringUntil: reads characters up to the first occurrence of the
terminator, consuming the terminator; at end of input it returns what was read.
Returns the string read (without the terminator) and the rest of the stream. -/
def readStringUntil (term : Char) : List Char → List Char × List Char
  | [] => ([], [])
  | c :: rest =>
      if c = term then ([], rest)
      else (c :: (readStringUntil term rest).1, (readStringUntil term rest).2)

/-- IBehavior readNextValue: value = configFile.readStringUntil CR, then the
LF is consumed and discarded by a second readStringUntil. -/
def readNextValue (file : List Char) : List Char × List Char :=
  ((readStringUntil '\r' file).1,
   (readStringUntil '\n' (readStringUntil '\r' file).2).2)

/-- Print println(String): appends the value followed by CR LF to the file. -/
def println (value file : List Char) : List Char :=
  file ++ value ++ ['\r', '\n']

/-- Arduino String substring(left, right): characters in [left, right),
clamped to the string length. -/
def substringA (s : List Char) (left right : Nat) : List Char :=
  (s.take right).drop left

/-- Arduino String operator[]: the character at the index, NUL when out of
range. -/
def charAtA (s : List Char) (i : Nat) : Char :=
  s.getD i (Char.ofNat 0)

/-- Digit-accumulation loop of atol: consumes leading digits, stops at the
first non-digit. -/
def digitsVal : List Char → Nat → Nat
  | c :: rest, acc => if c.isDigit then digitsVal rest (acc * 10 + (c.toNat - 48)) else acc
  | [], acc => acc

/-- Arduino String toInt (atol): skip C whitespace, optional sign, then
leading digits; 0 when there are none. -/
def toIntA (s : List Char) : Int :=
  let t := s.dropWhile (fun c =>
    (c == ' ') || (c == '\t') || (c == '\n') || (c == '\x0b') || (c == '\x0c') || (c == '\r'))
  match t with
  | '-' :: rest => -(digitsVal rest 0 : Int)
  | '+' :: rest => (digitsVal rest 0 : Int)
  | rest => (digitsVal rest 0 : Int)

/-- Helper for indexOfA: first index at or after i where the pattern occurs. -/
def indexOfAux (pat : List Char) : List Char → Nat → Int
  | [], i => if pat.isEmpty then (i : Int) else -1
  | c :: rest, i =>
      if pat.isPrefixOf (c :: rest) then (i : Int) else indexOfAux pat rest (i + 1)

/-- Arduino String indexOf(String): index of the first occurrence of the
pattern in the haystack, -1 when absent. -/
def indexOfA (hay pat : List Char) : Int :=
  indexOfAux pat hay 0

/-! ## Config Store (ConfigBehavior settings handlers) -/

/-- CONFIG_KEYS from the source, in their fixed order. -/
def CONFIG_KEYS : List String := ["ssid", "ssid-psk", "api-key", "tz"]

/-- webServer.arg(name): the submitted form value, the empty string when the
field was omitted.  The submitted form is modelled as a partial map. -/
def argOrEmpty (args : String → Option (List Char)) (k : String) : List Char :=
  (args k).getD []

/-- POST /settings handler body (current revision): for each config key in
order, println the submitted value into the freshly opened config file. -/
def postSettings (args : String → Option (List Char)) : List Char :=
  CONFIG_KEYS.foldl (fun file k => println (argOrEmpty args k) file) []

/-- GET /settings handler loop: for i < CONFIG_KEYS_COUNT while the file has
bytes available, bind key i to readNextValue.  The resulting JSON object is
modelled as the association list in insertion order. -/
def readSettings : List String → List Char → List (String × List Char)
  | [], _ => []
  | k :: ks, file =>
      if file.isEmpty then []
      else (k, (readNextValue file).1) :: readSettings ks (readNextValue file).2

/-- GET /settings handler: an empty JSON object when the config file does not
open, otherwise the key-value pairs read from it. -/
def getSettings (file : Option (List Char)) : List (String × List Char) :=
  match file with
  | none => []
  | some contents => readSettings CONFIG_KEYS contents

/-- Number of CR LF terminators occurring in a file (non-overlapping,
left to right). -/
def countCRLF : List Char → Nat
  | [] => 0
  | [_] => 0
  | a :: b :: rest =>
      if a = '\r' ∧ b = '\n' then countCRLF rest + 1 else countCRLF (b :: rest)

/-- Stated defaults of the specification for a settings field: the timezone
field defaults to the +00:00 literal, the other fields to the empty string.
This follows the words of the spec, for comparison with the code. -/
def specStatedDefault (k : String) : List Char :=
  if k = "tz" then "+00:00".toList else []

/-- POST /settings handler body of the earlier revision
(src/arduino/src/NixieClock.cpp): writes ssid, ssid-psk, server-url, then
either the submitted tz and tz-override values (when tz is non-empty) or the
literal lines manual and +00:00. -/
def postSettingsArduino (args : String → Option (List Char)) : List Char :=
  let base :=
    println (argOrEmpty args "server-url")
      (println (argOrEmpty args "ssid-psk")
        (println (argOrEmpty args "ssid") []))
  let tz := argOrEmpty args "tz"
  if 0 < tz.length then
    println (argOrEmpty args "tz-override") (println tz base)
  else
    println ("+00:00".toList) (println ("manual".toList) base)

/-! ## TimeLib calendar conversion (makeTime, as used by parseRFC7231Date) -/

/-- TimeLib LEAP_YEAR macro on an offset-from-1970 year. -/
def leapYear (y : Nat) : Bool :=
  (1970 + y) % 4 = 0 ∧ ((1970 + y) % 100 ≠ 0 ∨ (1970 + y) % 400 = 0)

/-- TimeLib monthDays table. -/
def monthDays : List Nat := [31, 28, 31, 30, 31, 30, 31, 31, 30, 31, 30, 31]

/-- Days contributed by the full months before the given month
(months count from 1), in the given offset-from-1970 year. -/
def daysBeforeMonth (year month : Nat) : Nat :=
  ((List.range month).drop 1).foldl
    (fun acc i => acc + (if i = 2 ∧ leapYear year then 29 else monthDays.getD (i - 1) 0)) 0

/-- TimeLib makeTime: epoch seconds from broken-down time, with year an
offset from 1970; the accumulator is a uint32, hence the final mod 2^32.
The weekday field is carried but, as in TimeLib, unused. -/
def makeTime (second minute hour _weekDay day month year : Nat) : Nat :=
  ((((year : Int) * (86400 * 365)
      + 86400 * (((List.range year).countP (fun i => leapYear i)) : Int)
      + 86400 * (daysBeforeMonth year month : Int)
      + ((day : Int) - 1) * 86400
      + (hour : Int) * 3600 + (minute : Int) * 60 + (second : Int))).emod (2 ^ 32)).toNat

/-- C conversion of an int expression to uint8_t. -/
def toUInt8N (i : Int) : Nat :=
  (i.emod 256).toNat

/-! ## ClocksBehavior -/

/-- ClocksBehavior parseRFC7231Date: fixed-offset field extraction from a
date like Tue, 15 Nov 1994 08:12:31 GMT, then makeTime.  Division is C
truncating division (Int.div). -/
def parseRFC7231Date (date : List Char) : Nat :=
  let weekDays := "SunMonTueWedThuFriSat".toList
  let months := "JanFebMarAprMayJunJulAugSepOctNovDec".toList
  let year := toUInt8N (toIntA (substringA date 12 16) - 1970)
  let month := toUInt8N ((indexOfA months (substringA date 8 11)).tdiv 3 + 1)
  let day := toUInt8N (toIntA (substringA date 5 7))
  let weekDay := toUInt8N ((indexOfA weekDays (substringA date 0 3)).tdiv 3 + 1)
  let hours := toUInt8N (toIntA (substringA date 17 19))
  let minutes := toUInt8N (toIntA (substringA date 20 22))
  let seconds := toUInt8N (toIntA (substringA date 23 25))
  makeTime seconds minutes hours weekDay day month year

/-- ClocksBehavior init, manual timezone branch: hours from characters [1,3),
minutes from [4,6), offset = hours * 3600 + minutes * 60, negated when the
leading character is a minus sign. -/
def parseTzOffset (tz : List Char) : Int :=
  let hours := substringA tz 1 3
  let minutes := substringA tz 4 6
  let off := toIntA hours * 3600 + toIntA minutes * 60
  if charAtA tz 0 = '-' then -off else off

/-- Location: the NaN-pair sentinel INVALID_LOCATION becomes the invalid
constructor; coordinates are abstracted as integers (their arithmetic is
never used by the core logic, only their validity and transport). -/
inductive Loc where
  | invalid
  | valid (lat lng : Int)
deriving DecidableEq

/-- Location isValid: false exactly on the sentinel. -/
def Loc.isValid : Loc → Bool
  | .invalid => false
  | .valid _ _ => true

/-- ClocksBehavior init, timezone resolution step.  Entered with
tzOffset = 0 and location = INVALID_LOCATION.  In the auto branch the
geolocation lookup runs only when the network scan found strictly more than
one network; otherwise the literal offset is parsed.  The geolocation
response is an input (geoResult); geolocateCalled records whether the
request was issued. -/
structure TzInitOutcome where
  tzOffset : Int
  location : Loc
  geolocateCalled : Bool
deriving DecidableEq

def initTzStep (tz : List Char) (networksFound : Int) (geoResult : Loc) : TzInitOutcome :=
  if tz = "auto".toList then
    if 1 < networksFound then ⟨0, geoResult, true⟩
    else ⟨0, Loc.invalid, false⟩
  else
    ⟨parseTzOffset tz, Loc.invalid, false⟩

/-- HTTP_CODE_OK. -/
def HTTP_CODE_OK : Int := 200

/-- Outcome of the HEAD request of getTime: HTTPClient sendRequest result
(negative on transport error) and the collected Date header. -/
structure HeadResponse where
  status : Int
  dateHeader : List Char
deriving DecidableEq

/-- Outcome of deserializeJson on the timezone GET body. -/
inductive TzJsonParse where
  | ok (rawOffset dstOffset : Int)
  | failed
deriving DecidableEq

/-- Outcome of the timezone GET request of getTime. -/
structure TzGetResponse where
  status : Int
  parse : TzJsonParse
deriving DecidableEq

/-- The mutable ClocksBehavior fields getTime touches. -/
structure ClockState where
  tzOffset : Int
  location : Loc
deriving DecidableEq

/-- ClocksBehavior getTime.  Returns the time_t handed to TimeLib (0 means
no update: TimeLib keeps the previous epoch) and the updated state.  The
network outcomes are inputs.  Faithful to the source: a non-OK HEAD returns
0 immediately; the Date header is parsed; when a valid location exists a
second GET refreshes tzOffset, and a non-OK status or a parse failure leaves
tzOffset unchanged while the epoch from the HEAD is still returned. -/
def getTime (st : ClockState) (head : HeadResponse) (get : TzGetResponse) :
    Nat × ClockState :=
  if head.status ≠ HTTP_CODE_OK then (0, st)
  else
    let time := parseRFC7231Date head.dateHeader
    if st.location.isValid then
      if get.status ≠ HTTP_CODE_OK then (time, st)
      else
        match get.parse with
        | .ok rawOffset dstOffset => (time, ⟨rawOffset + dstOffset, st.location⟩)
        | .failed => (time, st)
    else (time, st)

/-! ## ConfigBehavior BehaviorSwitcher (idle watchdog) -/

/-- Events seen by the BehaviorSwitcher: any HTTP request dispatched by the
web server (canHandle is consulted for every request and detaches the
ticker), or the firing of the one-shot ticker at the end of the idle
window. -/
inductive CfgEvent where
  | request
  | timerFire
deriving DecidableEq

/-- armed: the ticker is still attached.  switched: the ticker callback ran
context.setBehavior(new ClocksBehavior()). -/
structure SwitcherState where
  armed : Bool
  switched : Bool
deriving DecidableEq

/-- One event: a request detaches the ticker; the timer event runs the
callback only if the ticker is still armed (once-armed, one shot). -/
def switcherStep (s : SwitcherState) : CfgEvent → SwitcherState
  | .request => ⟨false, s.switched⟩
  | .timerFire => if s.armed then ⟨false, true⟩ else s

/-- The switcher is constructed armed and not yet switched. -/
def runSwitcher (events : List CfgEvent) : SwitcherState :=
  events.foldl switcherStep ⟨true, false⟩

/-! ## Context (Mode Controller) and setup/loop -/

/-- Context: owns at most one behavior through a raw pointer; the pointer is
null before setup installs a behavior. -/
structure CtxState (β : Type) where
  owned : Option β

/-- Observable events of a Context operation. -/
inductive CtxEvent (β : Type) where
  | destroy (b : β)
deriving DecidableEq

/-- Context setBehavior: delete this->behavior (emitting the destroy event
for the previously owned behavior, if any - delete of null is a no-op), then
install the new pointer.  The event list is emitted before the new state
exists, matching the statement order of the source. -/
def ctxSet {β : Type} (s : CtxState β) (newB : Option β) :
    CtxState β × List (CtxEvent β) :=
  (⟨newB⟩, (s.owned.map CtxEvent.destroy).toList)

/-- Context doLoop: delegates to the owned behavior; none models the null
pointer dereference that occurs when no behavior was ever installed. -/
def ctxTick {β : Type} (s : CtxState β) : Option β :=
  s.owned

/-- The behaviors, as far as ticking is concerned.  ConfigBehavior carries
its ready flag (set only when the soft-AP start succeeded and construction
finished). -/
inductive DevBehavior where
  | config (ready : Bool)
  | clocks
deriving DecidableEq

/-- Effect of one doLoop of a behavior. -/
inductive TickEffect where
  | noop
  | serveConfig
  | runClocks
deriving DecidableEq

/-- doLoop of each behavior: an unready ConfigBehavior does nothing, a ready
one services DNS and HTTP. -/
def behaviorTick : DevBehavior → TickEffect
  | .config false => .noop
  | .config true => .serveConfig
  | .clocks => .runClocks

/-- ConfigBehavior constructor: ready exactly when WiFi.softAP succeeded
(on failure the constructor returns before the ready flag is set). -/
def mkConfigBehavior (apStartOk : Bool) : DevBehavior :=
  .config apStartOk

/-- setup(): installs a ConfigBehavior only when the filesystem mounts;
otherwise the Context keeps its null pointer. -/
def setupDevice (fsMountOk apStartOk : Bool) : CtxState DevBehavior :=
  if fsMountOk then (ctxSet ⟨none⟩ (some (mkConfigBehavior apStartOk))).1
  else ⟨none⟩

/-- loop(): context.doLoop().  none models the fatal null-pointer
dereference of behavior->doLoop() when setup installed no behavior. -/
def loopDevice (s : CtxState DevBehavior) : Option TickEffect :=
  (ctxTick s).map behaviorTick

/-! ## Helper lemmas -/

/-- Reading up to a terminator that is absent from the prefix yields exactly
that prefix and consumes the terminator. -/
theorem readStringUntil_append (term : Char) (v rest : List Char) :
    term ∉ v → readStringUntil term (v ++ term :: rest) = (v, rest) := by
  induction v with
  | nil =>
    intro _
    simp [readStringUntil]
  | cons c cs ih =>
    intro h
    have hc : c ≠ term := fun hcc => h (by simp [hcc])
    rw [List.cons_append]
    simp only [readStringUntil, hc, if_false]
    rw [ih (fun hm => h (List.mem_cons_of_mem _ hm))]

/-- readNextValue on a CR-free value followed by a CR LF line terminator. -/
theorem readNextValue_line (v rest : List Char) (h : ('\r' : Char) ∉ v) :
    readNextValue (v ++ '\r' :: '\n' :: rest) = (v, rest) := by
  unfold readNextValue
  rw [readStringUntil_append '\r' v ('\n' :: rest) h]
  simp [readStringUntil]

/-- One iteration of the GET /settings loop over a CR-free stored line. -/
theorem readSettings_cons (k : String) (ks : List String) (v rest : List Char)
    (h : ('\r' : Char) ∉ v) :
    readSettings (k :: ks) (v ++ '\r' :: '\n' :: rest) = (k, v) :: readSettings ks rest := by
  have hne : (v ++ '\r' :: '\n' :: rest).isEmpty = false := by cases v <;> rfl
  simp only [readSettings, hne, Bool.false_eq_true, if_false]
  rw [readNextValue_line v rest h]

/-- The file written by the POST /settings handler, line by line. -/
theorem postSettings_shape (args : String → Option (List Char)) :
    postSettings args =
      argOrEmpty args "ssid" ++ '\r' :: '\n' ::
        (argOrEmpty args "ssid-psk" ++ '\r' :: '\n' ::
          (argOrEmpty args "api-key" ++ '\r' :: '\n' ::
            (argOrEmpty args "tz" ++ '\r' :: '\n' :: []))) := by
  simp [postSettings, CONFIG_KEYS, println, List.append_assoc]

/-- When every submitted value is CR/LF-free, each form value read back by
webServer.arg is CR-free. -/
theorem argOrEmpty_noCR (args : String → Option (List Char))
    (h : ∀ k v, args k = some v → ('\r' : Char) ∉ v ∧ ('\n' : Char) ∉ v)
    (k : String) : ('\r' : Char) ∉ argOrEmpty args k := by
  unfold argOrEmpty
  cases hk : args k with
  | none => simp
  | some v => simpa using (h k v hk).1

/-- Round trip of the Config Store: reading back a file just written by the
POST handler recovers every key with the value the client submitted (the
empty string for an omitted field), provided the values are CR-free. -/
theorem settings_roundTrip_aux (args : String → Option (List Char))
    (h : ∀ k, ('\r' : Char) ∉ argOrEmpty args k) :
    readSettings CONFIG_KEYS (postSettings args) =
      CONFIG_KEYS.map (fun k => (k, argOrEmpty args k)) := by
  rw [postSettings_shape]
  rw [show CONFIG_KEYS = "ssid" :: "ssid-psk" :: "api-key" :: "tz" :: ([] : List String) from rfl]
  rw [readSettings_cons _ _ _ _ (h "ssid"), readSettings_cons _ _ _ _ (h "ssid-psk"),
    readSettings_cons _ _ _ _ (h "api-key"), readSettings_cons _ _ _ _ (h "tz")]
  simp [readSettings]

/-- Counting CR LF terminators across a CR-free value and its terminator. -/
theorem countCRLF_append (v l : List Char) :
    ('\r' : Char) ∉ v → countCRLF (v ++ '\r' :: '\n' :: l) = countCRLF l + 1 := by
  induction v with
  | nil =>
    intro _
    simp [countCRLF]
  | cons c cs ih =>
    intro h
    have hc : c ≠ '\r' := fun hcc => h (by simp [hcc])
    have ihh := ih (fun hm => h (List.mem_cons_of_mem _ hm))
    cases cs with
    | nil =>
      rw [List.cons_append, List.nil_append]
      rw [countCRLF, if_neg (fun hand => hc hand.1)]
      simp [countCRLF]
    | cons d ds =>
      simp only [List.cons_append] at ihh ⊢
      rw [countCRLF, if_neg (fun hand => hc hand.1)]
      exact ihh

/-- The switcher state after a non-empty run of request-only events: the
ticker is detached and the switched flag is untouched. -/
theorem runSwitcher_allRequests (l : List CfgEvent) :
    ∀ s : SwitcherState, (∀ e ∈ l, e = CfgEvent.request) → l ≠ [] →
      l.foldl switcherStep s = ⟨false, s.switched⟩ := by
  induction l with
  | nil =>
    intro s _ hne
    exact absurd rfl hne
  | cons a rest ih =>
    intro s hl _
    have ha : a = CfgEvent.request := hl a (List.mem_cons_self a rest)
    subst ha
    rw [List.foldl_cons]
    cases hr : rest with
    | nil => rfl
    | cons b bs =>
      subst hr
      exact ih _ (fun e he => hl e (List.mem_cons_of_mem _ he)) (by simp)

/-! ## Claim theorems -/

/-- Claim C1, counterexample: the claim as stated fails on the code.  A POST
that omits every field (values trivially CR/LF-free, persisted successfully)
is read back by GET /settings with the timezone field as the empty string,
not as the stated +00:00 default, so the returned object differs from the
submitted map extended with the stated defaults. -/
theorem roundTrip_specDefault_cex :
    getSettings (some (postSettings (fun _ => none))) ≠
      CONFIG_KEYS.map (fun k => (k, specStatedDefault k)) := by decide

/-- Claim C1 (amended): for every settings map submitted via POST /settings
whose values contain no CR/LF and which is successfully persisted, a
subsequent GET /settings returns a JSON object equal to the submitted map,
with omitted fields present as empty strings. -/
theorem config_roundTrip (args : String → Option (List Char))
    (h : ∀ k v, args k = some v → ('\r' : Char) ∉ v ∧ ('\n' : Char) ∉ v) :
    getSettings (some (postSettings args)) =
      CONFIG_KEYS.map (fun k => (k, (args k).getD [])) := by
  have haux := settings_roundTrip_aux args (argOrEmpty_noCR args h)
  simpa [getSettings, argOrEmpty] using haux

/-- Witness for config_roundTrip at the all-omitted submission. -/
theorem config_roundTrip_witness :
    getSettings (some (postSettings (fun _ => none))) =
      [("ssid", ([] : List Char)), ("ssid-psk", []), ("api-key", []), ("tz", [])] := by
  rw [config_roundTrip (fun _ => none) (fun _ _ hv => Option.noConfusion hv)]
  rfl

/-- Claim C2: for every execution of getTime, a failed HEAD request
(non-success status or transport error, both reported as a status other than
HTTP_CODE_OK) yields 0 - the no-update value, TimeLib then keeps the
previous epoch - with the state (hence the stored tzOffset) unchanged; and
when the HEAD succeeds but the offset-refresh GET fails or its JSON parse
fails, tzOffset is left unchanged and the epoch parsed from the Date header
of the HEAD is still returned. -/
theorem getTime_error_paths (st : ClockState) (head : HeadResponse) (get : TzGetResponse) :
    (head.status ≠ HTTP_CODE_OK → getTime st head get = (0, st))
  ∧ (head.status = HTTP_CODE_OK →
      (get.status ≠ HTTP_CODE_OK ∨ get.parse = TzJsonParse.failed) →
      getTime st head get = (parseRFC7231Date head.dateHeader, st)) := by
  constructor
  · intro h
    simp [getTime, h]
  · intro h hg
    by_cases hL : st.location.isValid
    · rcases hg with hg | hg
      · simp [getTime, h, hL, hg]
      · by_cases hs : get.status = HTTP_CODE_OK
        · simp [getTime, h, hL, hs, hg]
        · simp [getTime, h, hL, hs]
    · simp [getTime, h, hL]

/-- Witness for getTime_error_paths: a transport-error HEAD, and a failed
refresh GET after a successful HEAD. -/
theorem getTime_error_paths_witness :
    getTime ⟨0, Loc.invalid⟩ ⟨-1, []⟩ ⟨200, TzJsonParse.failed⟩ = (0, ⟨0, Loc.invalid⟩)
  ∧ getTime ⟨7, Loc.valid 1 2⟩ ⟨200, "Tue, 15 Nov 1994 08:12:31 GMT".toList⟩
      ⟨500, TzJsonParse.failed⟩
      = (parseRFC7231Date ("Tue, 15 Nov 1994 08:12:31 GMT".toList), ⟨7, Loc.valid 1 2⟩) :=
  ⟨(getTime_error_paths ⟨0, Loc.invalid⟩ ⟨-1, []⟩ ⟨200, TzJsonParse.failed⟩).1 (by decide),
   (getTime_error_paths ⟨7, Loc.valid 1 2⟩ ⟨200, "Tue, 15 Nov 1994 08:12:31 GMT".toList⟩
      ⟨500, TzJsonParse.failed⟩).2 rfl (Or.inl (by decide))⟩

/-- Claim C3: parseRFC7231Date applied to the exact input
Tue, 15 Nov 1994 08:12:31 GMT returns the epoch timestamp of
1994-11-15T08:12:31Z, namely 784887151 seconds. -/
theorem parseRFC7231Date_rfc_example :
    parseRFC7231Date ("Tue, 15 Nov 1994 08:12:31 GMT".toList) = 784887151 := by decide

/-- Claim C4: the manual timezone specifier -05:30 parses to an offset of
-19800 seconds and +00:00 parses to 0 seconds. -/
theorem parseTzOffset_literal_examples :
    parseTzOffset ("-05:30".toList) = -19800 ∧ parseTzOffset ("+00:00".toList) = 0 := by
  decide

/-- Claim C5, counterexample: the claim as stated fails on the current
revision.  After a POST that omits the timezone value, the store read back
has the tz field as the empty string; neither a manual line nor a +00:00
line is present. -/
theorem post_tz_default_cex :
    ("tz", ([] : List Char)) ∈ readSettings CONFIG_KEYS (postSettings (fun _ => none))
  ∧ ("tz", "+00:00".toList) ∉ readSettings CONFIG_KEYS (postSettings (fun _ => none))
  ∧ ("tz", "manual".toList) ∉ readSettings CONFIG_KEYS (postSettings (fun _ => none)) := by
  decide

/-- Claim C5 (amended): for every POST to /settings omitting the timezone
value, the current handler rewrites the Config Store with the tz field as an
empty line; the defaulting to the literal manual and +00:00 lines happens
only in the earlier revision's handler. -/
theorem post_tz_omitted (args : String → Option (List Char)) (h : args "tz" = none) :
    postSettings args =
      println [] (println (argOrEmpty args "api-key")
        (println (argOrEmpty args "ssid-psk") (println (argOrEmpty args "ssid") [])))
  ∧ postSettingsArduino args =
      println ("+00:00".toList) (println ("manual".toList)
        (println (argOrEmpty args "server-url")
          (println (argOrEmpty args "ssid-psk") (println (argOrEmpty args "ssid") [])))) := by
  have htz : argOrEmpty args "tz" = [] := by simp [argOrEmpty, h]
  constructor
  · simp [postSettings, CONFIG_KEYS, htz]
  · simp [postSettingsArduino, htz]

/-- Witness for post_tz_omitted at the all-omitted submission. -/
theorem post_tz_omitted_witness :
    postSettings (fun _ => none) =
      println [] (println (argOrEmpty (fun _ => none) "api-key")
        (println (argOrEmpty (fun _ => none) "ssid-psk")
          (println (argOrEmpty (fun _ => none) "ssid") [])))
  ∧ postSettingsArduino (fun _ => none) =
      println ("+00:00".toList) (println ("manual".toList)
        (println (argOrEmpty (fun _ => none) "server-url")
          (println (argOrEmpty (fun _ => none) "ssid-psk")
            (println (argOrEmpty (fun _ => none) "ssid") [])))) :=
  post_tz_omitted (fun _ => none) rfl

/-- Claim C6: over any sequence of configuration-mode events in which the
one-shot idle timer has not yet fired, following the trace with the timer
firing at the end of the idle window: the switch to clocks mode happens
exactly when no HTTP request arrived during the window, and any request
arriving before the window elapsed cancels the pending switch. -/
theorem switcher_idle_window (pre : List CfgEvent) (h : CfgEvent.timerFire ∉ pre) :
    ((runSwitcher (pre ++ [CfgEvent.timerFire])).switched = true ↔ CfgEvent.request ∉ pre)
  ∧ (CfgEvent.request ∈ pre →
      (runSwitcher (pre ++ [CfgEvent.timerFire])).switched = false) := by
  have hall : ∀ e ∈ pre, e = CfgEvent.request := by
    intro e he
    cases e with
    | request => rfl
    | timerFire => exact absurd he h
  by_cases hp : pre = []
  · subst hp
    simp [runSwitcher, switcherStep]
  · have hstate : pre.foldl switcherStep ⟨true, false⟩ = ⟨false, false⟩ :=
      runSwitcher_allRequests pre ⟨true, false⟩ hall hp
    have hmem : CfgEvent.request ∈ pre := by
      obtain ⟨x, hx⟩ := List.exists_mem_of_ne_nil pre hp
      have hxr := hall x hx
      rwa [hxr] at hx
    unfold runSwitcher
    rw [List.foldl_append, hstate]
    simp [switcherStep, hmem]

/-- Witness for switcher_idle_window: a single request before the window
elapses prevents the switch. -/
theorem switcher_idle_window_witness :
    CfgEvent.timerFire ∉ [CfgEvent.request]
  ∧ (((runSwitcher ([CfgEvent.request] ++ [CfgEvent.timerFire])).switched = true ↔
        CfgEvent.request ∉ [CfgEvent.request])
     ∧ (CfgEvent.request ∈ [CfgEvent.request] →
        (runSwitcher ([CfgEvent.request] ++ [CfgEvent.timerFire])).switched = false)) :=
  ⟨by decide, switcher_idle_window [CfgEvent.request] (by decide)⟩

/-- Claim C7: with the auto timezone specifier, a scan finding at most one
visible network issues no geolocation request (the offset stays 0 and the
location stays invalid), and the geolocation lookup runs exactly when the
visible-network count is strictly greater than 1. -/
theorem initTz_auto_threshold (networksFound : Int) (geoResult : Loc) :
    (networksFound ≤ 1 →
      initTzStep ("auto".toList) networksFound geoResult = ⟨0, Loc.invalid, false⟩)
  ∧ ((initTzStep ("auto".toList) networksFound geoResult).geolocateCalled = true ↔
      1 < networksFound) := by
  constructor
  · intro h
    simp [initTzStep, not_lt.mpr h]
  · by_cases h : 1 < networksFound <;> simp [initTzStep, h]

/-- Witness for initTz_auto_threshold: one visible network issues no
request; five visible networks do. -/
theorem initTz_auto_threshold_witness :
    ((1 : Int) ≤ 1 ∧ initTzStep ("auto".toList) 1 Loc.invalid = ⟨0, Loc.invalid, false⟩)
  ∧ ((initTzStep ("auto".toList) 5 (Loc.valid 1 2)).geolocateCalled = true ↔ (1 : Int) < 5) :=
  ⟨⟨by decide, (initTz_auto_threshold 1 Loc.invalid).1 (by decide)⟩,
   (initTz_auto_threshold 5 (Loc.valid 1 2)).2⟩

/-- Claim C8: setBehavior on a Context owning a behavior destroys the old
behavior during the call - before the new one is visible to any future tick
- after which exactly the new behavior is owned and every tick delegates to
it; before the call every tick delegated to the old one. -/
theorem context_setBehavior_spec {β : Type} (s : CtxState β) (b newB : β)
    (h : s.owned = some b) :
    (ctxSet s (some newB)).2 = [CtxEvent.destroy b]
  ∧ (ctxSet s (some newB)).1.owned = some newB
  ∧ ctxTick (ctxSet s (some newB)).1 = some newB
  ∧ ctxTick s = some b := by
  simp [ctxSet, ctxTick, h]

/-- Witness for context_setBehavior_spec on a concrete handoff. -/
theorem context_setBehavior_witness :
    (ctxSet (⟨some 0⟩ : CtxState Nat) (some 1)).2 = [CtxEvent.destroy 0]
  ∧ (ctxSet (⟨some 0⟩ : CtxState Nat) (some 1)).1.owned = some 1
  ∧ ctxTick (ctxSet (⟨some 0⟩ : CtxState Nat) (some 1)).1 = some 1
  ∧ ctxTick (⟨some 0⟩ : CtxState Nat) = some 0 :=
  context_setBehavior_spec (⟨some 0⟩ : CtxState Nat) 0 1 rfl

/-- Claim C9, code evaluation: an access-point start failure indeed leaves a
behavior whose ticks are no-ops, but a filesystem mount failure leaves the
Context with a null behavior pointer, and the very next loop() dereferences
it - modelled as none - instead of no-opping. -/
theorem setup_failure_tick :
    loopDevice (setupDevice true false) = some TickEffect.noop
  ∧ loopDevice (setupDevice false true) = none
  ∧ loopDevice (setupDevice false false) = none := by decide

/-- Claim C10, counterexample: the claim as stated fails on the code when a
submitted value embeds CR LF.  Submitting ssid = a CR LF b with the other
fields omitted persists five CR LF terminated lines, and the omitted
ssid-psk field is read back as b rather than as the empty string. -/
theorem post_crlf_cex :
    (fun k => if k = "ssid" then some ("a\r\nb".toList) else none) "ssid-psk" = none
  ∧ countCRLF (postSettings
      (fun k => if k = "ssid" then some ("a\r\nb".toList) else none)) = 5
  ∧ ("ssid-psk", ([] : List Char)) ∉ readSettings CONFIG_KEYS
      (postSettings (fun k => if k = "ssid" then some ("a\r\nb".toList) else none))
  ∧ ("ssid-psk", "b".toList) ∈ readSettings CONFIG_KEYS
      (postSettings (fun k => if k = "ssid" then some ("a\r\nb".toList) else none)) := by
  decide

/-- Claim C10 (amended): every successful POST whose values contain no CR/LF
writes exactly 4 CR LF terminated lines, one per key in the fixed order,
with omitted fields written as empty lines; a subsequent GET returns an
object with exactly the 4 keys in order, omitted fields as empty strings. -/
theorem post_writes_four_lines (args : String → Option (List Char))
    (h : ∀ k v, args k = some v → ('\r' : Char) ∉ v ∧ ('\n' : Char) ∉ v) :
    countCRLF (postSettings args) = 4
  ∧ (readSettings CONFIG_KEYS (postSettings args)).map Prod.fst = CONFIG_KEYS
  ∧ (∀ k, k ∈ CONFIG_KEYS → args k = none →
      (k, ([] : List Char)) ∈ readSettings CONFIG_KEYS (postSettings args)) := by
  have hcr := argOrEmpty_noCR args h
  refine ⟨?_, ?_, ?_⟩
  · rw [postSettings_shape]
    rw [countCRLF_append _ _ (hcr "ssid"), countCRLF_append _ _ (hcr "ssid-psk"),
      countCRLF_append _ _ (hcr "api-key"), countCRLF_append _ _ (hcr "tz")]
    rfl
  · rw [settings_roundTrip_aux args hcr]
    simp [CONFIG_KEYS]
  · intro k hk hnone
    rw [settings_roundTrip_aux args hcr]
    have hke : argOrEmpty args k = [] := by simp [argOrEmpty, hnone]
    simp only [CONFIG_KEYS, List.mem_cons, List.not_mem_nil, or_false] at hk
    rcases hk with rfl | rfl | rfl | rfl <;> simp [CONFIG_KEYS, hke]

/-- Witness for post_writes_four_lines at the all-omitted submission. -/
theorem post_writes_four_lines_witness :
    countCRLF (postSettings (fun _ => none)) = 4
  ∧ ("tz", ([] : List Char)) ∈ readSettings CONFIG_KEYS (postSettings (fun _ => none)) := by
  have h := post_writes_four_lines (fun _ => none) (fun _ _ hv => Option.noConfusion hv)
  exact ⟨h.1, h.2.2 "tz" (by decide) rfl⟩

end NixieClock
